import Mathlib

/-!
Shallow embedding of the chip8_rs emulator (src/cpu.rs, src/rand.rs).

State bytes and words are modelled as `Nat` with explicit `% 256` / `% 65536`
at the points where the Rust code wraps (`wrapping_add`, `as u16` casts,
`overflowing_sub`).  Rust panics (slice index out of bounds, checked
subtraction underflow on `usize`, shift amount overflow, `Option::unwrap`
of `None`) are modelled as `Except.error` results, which abort the whole
`execute` call with no surviving state, exactly like a panic aborts the run.
-/

namespace Chip8Emu

/-- Point update of a total function, modelling a single array-slot write. -/
def store (f : Nat → Nat) (k x : Nat) : Nat → Nat :=
  fun j => if j = k then x else f j

/-- The machine state of `struct Chip8` in src/cpu.rs.  Arrays (`ram`,
`vram`, `stack`, `v`) are modelled as total functions from index to value;
the Rust bounds checks on every array access appear explicitly in the
operations below. -/
structure Chip8 where
  ram : Nat → Nat
  vram : Nat → Nat
  stack : Nat → Nat
  sp : Nat
  v : Nat → Nat
  i : Nat
  pc : Nat
  delay_timer : Nat
  sound_timer : Nat
  key : Nat

/-- The ways the Rust code can panic while executing one instruction. -/
inductive Err where
  | indexOutOfBounds
  | subOverflow
  | shiftOverflow
  | unwrapNone
deriving DecidableEq

/-- Side-effect signals emitted by one `execute` call: `diag` is an
`eprintln!` of an unknown opcode, `beep` the `println!("BEEP!")` from the
timer block. -/
structure Effects where
  diag : Bool
  beep : Bool
deriving DecidableEq

/-- `Chip8::new()`: zero state with PC at 0x200. -/
def Chip8.new : Chip8 :=
  { ram := fun _ => 0
    vram := fun _ => 0
    stack := fun _ => 0
    sp := 0
    v := fun _ => 0
    i := 0
    pc := 0x200
    delay_timer := 0
    sound_timer := 0
    key := 0 }

/-- src/rand.rs `Rand::random_u8`: reads one byte from /dev/urandom and
returns `Some` of it; returns `None` when the device cannot be opened.
The byte the device would supply (or its absence) is the `entropy`
argument. -/
def random_u8 (entropy : Option Nat) : Option Nat :=
  entropy

/-- The FX55 loop `for j in 0..=X { self.ram[self.i as usize + j] = self.v[j] }`,
recursed on the number of registers written (`cnt` = X + 1), ascending.
Each write carries the Rust bounds check on `ram`. -/
def writeRegsToRam (ram : Nat → Nat) (v : Nat → Nat) (base : Nat) : Nat → Except Err (Nat → Nat)
  | 0 => .ok ram
  | n + 1 =>
    match writeRegsToRam ram v base n with
    | .error e => .error e
    | .ok r => if base + n < 4096 then .ok (store r (base + n) (v n)) else .error .indexOutOfBounds

/-- The FX65 loop `for j in 0..=X { self.v[j] = self.ram[self.i as usize + j] }`,
recursed on the number of registers read, ascending, with the bounds check
on each `ram` read. -/
def readRamToRegs (v : Nat → Nat) (ram : Nat → Nat) (base : Nat) : Nat → Except Err (Nat → Nat)
  | 0 => .ok v
  | n + 1 =>
    match readRamToRegs v ram base n with
    | .error e => .error e
    | .ok w => if base + n < 4096 then .ok (store w n (ram (base + n))) else .error .indexOutOfBounds

/-- The loop body of `Chip8::load_game`: `for i in 0..512 { self.ram[i + 0x200] = 0 }`,
recursed on the loop count. -/
def zeroGameArea (ram : Nat → Nat) : Nat → (Nat → Nat)
  | 0 => ram
  | n + 1 => store (zeroGameArea ram n) (n + 0x200) 0

/-- `Chip8::load_game(&mut self, game: &str)`: the bytes of the `game`
argument are the `game` parameter here; the Rust body never reads them and
only zeroes the 512 bytes starting at 0x200. -/
def load_game (s : Chip8) (game : List Nat) : Chip8 :=
  { s with ram := zeroGameArea s.ram 512 }

/-- The big `match` of `Chip8::execute` (everything before the trailing
timer-update block).  Returns the new state and whether an unknown-opcode
diagnostic (`eprintln!`) was emitted, or the panic that aborted the arm. -/
def executeArm (rnd : Option Nat) (s : Chip8) (op : Nat) : Except Err (Chip8 × Bool) :=
  match op &&& 0xF000 with
  | 0x0000 =>
    match op &&& 0x00FF with
    -- 00E0: clear screen (empty body in the source)
    | 0x00E0 => .ok (s, false)
    -- 00EE: return; `self.sp -= 1` panics at 0, then `self.stack[self.sp]`
    | 0x00EE =>
      if s.sp = 0 then .error .subOverflow
      else if s.sp - 1 < 16 then
        .ok ({ s with sp := s.sp - 1, pc := s.stack (s.sp - 1) }, false)
      else .error .indexOutOfBounds
    | _ => .ok (s, true)
  -- 1NNN: jump
  | 0x1000 => .ok ({ s with pc := op &&& 0x0FFF }, false)
  -- 2NNN: call; `self.stack[self.sp] = self.pc as u16` bounds-checks sp
  | 0x2000 =>
    if s.sp < 16 then
      .ok ({ s with stack := store s.stack s.sp (s.pc % 65536), sp := s.sp + 1,
                    pc := op &&& 0x0FFF }, false)
    else .error .indexOutOfBounds
  -- 3XNN: skip if VX == NN (no else branch in the source)
  | 0x3000 =>
    if s.v ((op &&& 0x0F00) >>> 8) = op &&& 0x00FF then
      .ok ({ s with pc := s.pc + 2 + 2 }, false)
    else .ok (s, false)
  -- 4XNN: skip if VX != NN
  | 0x4000 =>
    if s.v ((op &&& 0x0F00) >>> 8) ≠ op &&& 0x00FF then
      .ok ({ s with pc := s.pc + 2 + 2 }, false)
    else .ok (s, false)
  -- 5XY0: skip if VX == VY
  | 0x5000 =>
    if s.v ((op &&& 0x0F00) >>> 8) = s.v ((op &&& 0x00F0) >>> 4) then
      .ok ({ s with pc := s.pc + 2 + 2 }, false)
    else .ok (s, false)
  -- 6XNN: VX := NN
  | 0x6000 =>
    .ok ({ s with v := store s.v ((op &&& 0x0F00) >>> 8) (op &&& 0x00FF), pc := s.pc + 2 }, false)
  -- 7XNN: VX := VX wrapping_add NN
  | 0x7000 =>
    .ok ({ s with v := store s.v ((op &&& 0x0F00) >>> 8)
                        ((s.v ((op &&& 0x0F00) >>> 8) + (op &&& 0x00FF)) % 256),
                  pc := s.pc + 2 }, false)
  | 0x8000 =>
    match op &&& 0x000F with
    -- 8XY0: VX := VY
    | 0x0000 =>
      .ok ({ s with v := store s.v ((op &&& 0x0F00) >>> 8) (s.v ((op &&& 0x00F0) >>> 4)),
                    pc := s.pc + 2 }, false)
    -- 8XY1: VX |= VY
    | 0x0001 =>
      .ok ({ s with v := store s.v ((op &&& 0x0F00) >>> 8)
                          (s.v ((op &&& 0x0F00) >>> 8) ||| s.v ((op &&& 0x00F0) >>> 4)),
                    pc := s.pc + 2 }, false)
    -- 8XY2: VX &= VY
    | 0x0002 =>
      .ok ({ s with v := store s.v ((op &&& 0x0F00) >>> 8)
                          (s.v ((op &&& 0x0F00) >>> 8) &&& s.v ((op &&& 0x00F0) >>> 4)),
                    pc := s.pc + 2 }, false)
    -- 8XY3: VX ^= VY
    | 0x0003 =>
      .ok ({ s with v := store s.v ((op &&& 0x0F00) >>> 8)
                          (s.v ((op &&& 0x0F00) >>> 8) ^^^ s.v ((op &&& 0x00F0) >>> 4)),
                    pc := s.pc + 2 }, false)
    -- 8XY4: VX := VX + VY (wrapping), then VF := carry
    | 0x0004 =>
      .ok ({ s with v := store (store s.v ((op &&& 0x0F00) >>> 8)
                          ((s.v ((op &&& 0x0F00) >>> 8) + s.v ((op &&& 0x00F0) >>> 4)) % 256))
                          0xF
                          (if 256 ≤ s.v ((op &&& 0x0F00) >>> 8) + s.v ((op &&& 0x00F0) >>> 4)
                           then 1 else 0),
                    pc := s.pc + 2 }, false)
    -- 8XY5: VX := VX - VY (wrapping), then VF := if borrow then 1 else 0
    | 0x0005 =>
      .ok ({ s with v := store (store s.v ((op &&& 0x0F00) >>> 8)
                          ((s.v ((op &&& 0x0F00) >>> 8) + 256 - s.v ((op &&& 0x00F0) >>> 4)) % 256))
                          0xF
                          (if s.v ((op &&& 0x0F00) >>> 8) < s.v ((op &&& 0x00F0) >>> 4)
                           then 1 else 0),
                    pc := s.pc + 2 }, false)
    -- 8XY6: VF := VX & 1 first, then VX >>= 1 (reading the updated array)
    | 0x0006 =>
      let v1 := store s.v 0xF (s.v ((op &&& 0x0F00) >>> 8) &&& 1)
      .ok ({ s with v := store v1 ((op &&& 0x0F00) >>> 8) (v1 ((op &&& 0x0F00) >>> 8) >>> 1),
                    pc := s.pc + 2 }, false)
    -- 8XY7: VX := VY - VX (wrapping), then VF := if borrow then 1 else 0
    | 0x0007 =>
      .ok ({ s with v := store (store s.v ((op &&& 0x0F00) >>> 8)
                          ((s.v ((op &&& 0x00F0) >>> 4) + 256 - s.v ((op &&& 0x0F00) >>> 8)) % 256))
                          0xF
                          (if s.v ((op &&& 0x00F0) >>> 4) < s.v ((op &&& 0x0F00) >>> 8)
                           then 1 else 0),
                    pc := s.pc + 2 }, false)
    -- 8XYE: VF := (VX & 0x80) >> 7 first, then VX <<= 1 (u8 truncation)
    | 0x000E =>
      let v1 := store s.v 0xF ((s.v ((op &&& 0x0F00) >>> 8) &&& 0x80) >>> 7)
      .ok ({ s with v := store v1 ((op &&& 0x0F00) >>> 8)
                          ((v1 ((op &&& 0x0F00) >>> 8) <<< 1) % 256),
                    pc := s.pc + 2 }, false)
    | _ => .ok (s, true)
  -- 9XY0: skip if VX != VY
  | 0x9000 =>
    if s.v ((op &&& 0x0F00) >>> 8) ≠ s.v ((op &&& 0x00F0) >>> 4) then
      .ok ({ s with pc := s.pc + 2 + 2 }, false)
    else .ok (s, false)
  -- ANNN: I := NNN
  | 0xA000 => .ok ({ s with i := op &&& 0x0FFF, pc := s.pc + 2 }, false)
  -- BNNN: PC := NNN + V0
  | 0xB000 => .ok ({ s with pc := (op &&& 0x0FFF) + s.v 0 }, false)
  -- CXNN: VX := NN wrapping_add random byte (unwrap panics on None)
  | 0xC000 =>
    match random_u8 rnd with
    | none => .error .unwrapNone
    | some r =>
      .ok ({ s with v := store s.v ((op &&& 0x0F00) >>> 8) (((op &&& 0x00FF) + r) % 256),
                    pc := s.pc + 2 }, false)
  -- DXYN: draw (empty body in the source)
  | 0xD000 => .ok (s, false)
  | 0xE000 =>
    match op &&& 0x00FF with
    -- the source matches the low byte against 0x00E9 here
    | 0x00E9 =>
      if 16 ≤ s.v ((op &&& 0x0F00) >>> 8) then .error .shiftOverflow
      else if s.key &&& (1 <<< s.v ((op &&& 0x0F00) >>> 8)) ≠ 0 then
        .ok ({ s with pc := s.pc + 2 + 2 }, false)
      else .ok (s, false)
    -- EXA1: skip if key in VX is not pressed
    | 0x00A1 =>
      if 16 ≤ s.v ((op &&& 0x0F00) >>> 8) then .error .shiftOverflow
      else if s.key &&& (1 <<< s.v ((op &&& 0x0F00) >>> 8)) = 0 then
        .ok ({ s with pc := s.pc + 2 + 2 }, false)
      else .ok (s, false)
    | _ => .ok (s, true)
  | 0xF000 =>
    match op &&& 0x00FF with
    -- FX07: VX := delay timer
    | 0x0007 =>
      .ok ({ s with v := store s.v ((op &&& 0x0F00) >>> 8) s.delay_timer, pc := s.pc + 2 }, false)
    -- FX0A: wait for input (empty body in the source)
    | 0x000A => .ok (s, false)
    -- FX15: delay timer := VX
    | 0x0015 =>
      .ok ({ s with delay_timer := s.v ((op &&& 0x0F00) >>> 8), pc := s.pc + 2 }, false)
    -- FX18: sound timer := VX
    | 0x0018 =>
      .ok ({ s with sound_timer := s.v ((op &&& 0x0F00) >>> 8), pc := s.pc + 2 }, false)
    -- FX1E: I := I wrapping_add VX; the source does not call next() here
    | 0x001E =>
      .ok ({ s with i := (s.i + s.v ((op &&& 0x0F00) >>> 8)) % 65536 }, false)
    -- FX29: sprite address (empty body in the source)
    | 0x0029 => .ok (s, false)
    -- FX33: BCD store at ram[I], ram[I+1], ram[I+2], each bounds-checked
    | 0x0033 =>
      if s.i < 4096 then
        if s.i + 1 < 4096 then
          if s.i + 2 < 4096 then
            .ok ({ s with ram := store (store (store s.ram s.i
                            (s.v ((op &&& 0x0F00) >>> 8) / 100))
                            (s.i + 1) (s.v ((op &&& 0x0F00) >>> 8) / 10 % 10))
                            (s.i + 2) (s.v ((op &&& 0x0F00) >>> 8) % 100 % 10),
                          pc := s.pc + 2 }, false)
          else .error .indexOutOfBounds
        else .error .indexOutOfBounds
      else .error .indexOutOfBounds
    -- FX55: dump registers 0..=X to ram at I
    | 0x0055 =>
      match writeRegsToRam s.ram s.v s.i (((op &&& 0x0F00) >>> 8) + 1) with
      | .error e => .error e
      | .ok r => .ok ({ s with ram := r, pc := s.pc + 2 }, false)
    -- FX65: fill registers 0..=X from ram at I
    | 0x0065 =>
      match readRamToRegs s.v s.ram s.i (((op &&& 0x0F00) >>> 8) + 1) with
      | .error e => .error e
      | .ok w => .ok ({ s with v := w, pc := s.pc + 2 }, false)
    | _ => .ok (s, true)
  -- the final default arm of the Rust match (unreachable: the mask has only
  -- the sixteen values above)
  | _ => .ok (s, true)

/-- The timer-update block at the end of `Chip8::execute`; returns the new
state and whether "BEEP!" was printed. -/
def updateTimers (s : Chip8) : Chip8 × Bool :=
  let s1 := if 0 < s.delay_timer then { s with delay_timer := s.delay_timer - 1 } else s
  if 0 < s1.sound_timer then
    ({ s1 with sound_timer := s1.sound_timer - 1 }, s1.sound_timer == 1)
  else (s1, false)

/-- `Chip8::execute(&mut self, opcode)`: the dispatch followed by the timer
block (which runs whatever arm was taken, unless the arm panicked). -/
def execute (rnd : Option Nat) (s : Chip8) (op : Nat) : Except Err (Chip8 × Effects) :=
  match executeArm rnd s op with
  | .error e => .error e
  | .ok (s1, d) => .ok ((updateTimers s1).1, ⟨d, (updateTimers s1).2⟩)

/-- The instruction words that reach one of the `eprintln!("Unknown opcode ...")`
default arms of `Chip8::execute`: family 0x0 with a low byte other than
0xE0/0xEE, family 0x8 with a low nibble other than 0x0-0x7/0xE, family 0xE
with a low byte other than 0xE9/0xA1, and family 0xF with a low byte other
than the nine recognized ones. -/
def unrecognized (op : Nat) : Bool :=
  if op &&& 0xF000 = 0x0000 then
    !(op &&& 0x00FF == 0x00E0) && !(op &&& 0x00FF == 0x00EE)
  else if op &&& 0xF000 = 0x8000 then
    !(op &&& 0x000F == 0x0000) && !(op &&& 0x000F == 0x0001) &&
    !(op &&& 0x000F == 0x0002) && !(op &&& 0x000F == 0x0003) &&
    !(op &&& 0x000F == 0x0004) && !(op &&& 0x000F == 0x0005) &&
    !(op &&& 0x000F == 0x0006) && !(op &&& 0x000F == 0x0007) &&
    !(op &&& 0x000F == 0x000E)
  else if op &&& 0xF000 = 0xE000 then
    !(op &&& 0x00FF == 0x00E9) && !(op &&& 0x00FF == 0x00A1)
  else if op &&& 0xF000 = 0xF000 then
    !(op &&& 0x00FF == 0x0007) && !(op &&& 0x00FF == 0x000A) &&
    !(op &&& 0x00FF == 0x0015) && !(op &&& 0x00FF == 0x0018) &&
    !(op &&& 0x00FF == 0x001E) && !(op &&& 0x00FF == 0x0029) &&
    !(op &&& 0x00FF == 0x0033) && !(op &&& 0x00FF == 0x0055) &&
    !(op &&& 0x00FF == 0x0065)
  else false

/-- States of two values that agree on every component except possibly the
register with index `y`. -/
def agreeExceptV (y : Nat) (s1 s2 : Chip8) : Prop :=
  s1.ram = s2.ram ∧ s1.vram = s2.vram ∧ s1.stack = s2.stack ∧ s1.sp = s2.sp ∧
  s1.i = s2.i ∧ s1.pc = s2.pc ∧ s1.delay_timer = s2.delay_timer ∧
  s1.sound_timer = s2.sound_timer ∧ s1.key = s2.key ∧ ∀ k, k ≠ y → s1.v k = s2.v k

/-- Test state for subtraction: V0 = 0x05, V1 = 0x09. -/
def s95 : Chip8 := { Chip8.new with v := store (store (fun _ => 0) 0 0x05) 1 0x09 }

/-- Test state for subtraction: V0 = 0x09, V1 = 0x05. -/
def s59 : Chip8 := { Chip8.new with v := store (store (fun _ => 0) 0 0x09) 1 0x05 }

/-- Test state for the key-skip instructions: V0 = 5 and key 5 held
(bit 5 of the keymask set). -/
def sKey : Chip8 := { Chip8.new with v := store (fun _ => 0) 0 5, key := 32 }

/-- Test state with running timers: delay 5, sound 3. -/
def s5 : Chip8 := { Chip8.new with delay_timer := 5, sound_timer := 3 }

/-- The state `execute` produces from `s5` on opcode 0x00E0 (both timers
decremented by the trailing timer block). -/
def t5 : Chip8 := { Chip8.new with delay_timer := 4, sound_timer := 2 }

/-- Witness state for the shift noninterference claim: all registers zero. -/
def s1c : Chip8 := Chip8.new

/-- Witness state for the shift noninterference claim: like `s1c` except
V2 = 7. -/
def s2c : Chip8 := { Chip8.new with v := store (fun _ => 0) 2 7 }

@[simp] theorem updateTimers_ram (s : Chip8) : (updateTimers s).1.ram = s.ram := by
  simp only [updateTimers]; split_ifs <;> rfl

@[simp] theorem updateTimers_vram (s : Chip8) : (updateTimers s).1.vram = s.vram := by
  simp only [updateTimers]; split_ifs <;> rfl

@[simp] theorem updateTimers_stack (s : Chip8) : (updateTimers s).1.stack = s.stack := by
  simp only [updateTimers]; split_ifs <;> rfl

@[simp] theorem updateTimers_sp (s : Chip8) : (updateTimers s).1.sp = s.sp := by
  simp only [updateTimers]; split_ifs <;> rfl

@[simp] theorem updateTimers_v (s : Chip8) : (updateTimers s).1.v = s.v := by
  simp only [updateTimers]; split_ifs <;> rfl

@[simp] theorem updateTimers_i (s : Chip8) : (updateTimers s).1.i = s.i := by
  simp only [updateTimers]; split_ifs <;> rfl

@[simp] theorem updateTimers_pc (s : Chip8) : (updateTimers s).1.pc = s.pc := by
  simp only [updateTimers]; split_ifs <;> rfl

@[simp] theorem updateTimers_key (s : Chip8) : (updateTimers s).1.key = s.key := by
  simp only [updateTimers]; split_ifs <;> rfl

@[simp] theorem updateTimers_delay (s : Chip8) :
    (updateTimers s).1.delay_timer = s.delay_timer - 1 := by
  simp only [updateTimers]; split_ifs <;> simp_all

@[simp] theorem updateTimers_sound (s : Chip8) :
    (updateTimers s).1.sound_timer = s.sound_timer - 1 := by
  simp only [updateTimers]; split_ifs <;> simp_all

@[simp] theorem updateTimers_beep (s : Chip8) :
    (updateTimers s).2 = (s.sound_timer == 1) := by
  simp only [updateTimers]; split_ifs <;> simp_all

/-- C1: the claim says a failed conditional skip advances PC by 2 and FX1E
advances PC by 2, but the code leaves PC unchanged in both cases: from the
initial state (PC = 0x200, all registers 0), opcode 0x3001 (skip-if-V0 = 0x01,
condition false) returns with PC still 0x200, and opcode 0xF01E (add V0 to I)
also returns with PC still 0x200. -/
theorem failed_skip_and_fx1e_leave_pc_unchanged :
    (∃ t e, execute none Chip8.new 0x3001 = .ok (t, e) ∧ t.pc = Chip8.new.pc) ∧
    (∃ t e, execute none Chip8.new 0xF01E = .ok (t, e) ∧ t.pc = Chip8.new.pc) :=
  ⟨⟨_, _, rfl, rfl⟩, ⟨_, _, rfl, rfl⟩⟩

/-- C2: the claim says call then return restores PC to the instruction
immediately following the call; in the code, calling from PC = 0x200
(opcode 0x2300) and then returning (opcode 0x00EE) restores SP to its
pre-call value 0 but sets PC back to 0x200 — the address of the call
instruction itself, not 0x202. -/
theorem call_return_restores_call_address_itself :
    ∃ s1 e1 s2 e2, execute none Chip8.new 0x2300 = .ok (s1, e1) ∧
      execute none s1 0x00EE = .ok (s2, e2) ∧
      s1.pc = 0x300 ∧ s1.sp = 1 ∧
      s2.sp = Chip8.new.sp ∧ s2.pc = Chip8.new.pc ∧ Chip8.new.pc = 0x200 ∧
      ¬ s2.pc = 0x200 + 2 :=
  ⟨_, _, _, _, rfl, rfl, rfl, rfl, rfl, rfl, rfl, by decide⟩

/-- C3: the claim says subtraction sets VF = 1 iff minuend ≥ subtrahend
(no borrow); the code sets VF = 1 exactly when there IS a borrow.  With
V0 = 0x05, V1 = 0x09, opcode 0x8015 stores 0xFC but sets VF = 1 (claim: 0);
with V0 = 0x09, V1 = 0x05 it stores 0x04 but sets VF = 0 (claim: 1); and
8XY7 (opcode 0x8107, V1 := V0 − V1 = 0x05 − 0x09) stores 0xFC with VF = 1
(claim: 0). -/
theorem subtraction_sets_vf_on_borrow :
    (∃ t e, execute none s95 0x8015 = .ok (t, e) ∧ t.v 0 = 0xFC ∧ t.v 0xF = 1) ∧
    (∃ t e, execute none s59 0x8015 = .ok (t, e) ∧ t.v 0 = 0x04 ∧ t.v 0xF = 0) ∧
    (∃ t e, execute none s95 0x8107 = .ok (t, e) ∧ t.v 1 = 0xFC ∧ t.v 0xF = 1) :=
  ⟨⟨_, _, rfl, rfl, rfl⟩, ⟨_, _, rfl, rfl, rfl⟩, ⟨_, _, rfl, rfl, rfl⟩⟩

/-- C4: the claim says CXNN sets VX to (random byte) AND NN; the code
computes NN wrapping_add (random byte).  With NN = 0x00 and drawn byte
0xFF, the code stores 0xFF, while the bitwise AND of the same values
is 0x00. -/
theorem random_instruction_adds_mask_instead_of_and :
    ∃ t e, execute (some 0xFF) Chip8.new 0xC000 = .ok (t, e) ∧
      t.v 0 = 0xFF ∧ 0xFF &&& 0x00 = 0x00 :=
  ⟨_, _, rfl, rfl, rfl⟩

/-- C5: the claim says the instruction word 0xEX9E is recognized and skips
when the key in VX is pressed; the code matches the low byte against 0xE9,
so 0xE09E (with V0 = 5 and key 5 held) falls into the unrecognized default:
PC stays unchanged and the diagnostic is emitted, while the transposed word
0xE0E9 is the one that actually performs the skip (PC + 4). -/
theorem ex9e_with_real_encoding_is_unrecognized :
    (∃ t e, execute none sKey 0xE09E = .ok (t, e) ∧ t.pc = sKey.pc ∧
      e.diag = true ∧ unrecognized 0xE09E = true) ∧
    (∃ t e, execute none sKey 0xE0E9 = .ok (t, e) ∧ t.pc = sKey.pc + 4 ∧
      e.diag = false) :=
  ⟨⟨_, _, rfl, rfl, rfl, rfl⟩, ⟨_, _, rfl, rfl, rfl⟩⟩

/-- C6: a call (2NNN) at SP = 16 aborts on the slice bounds check before
writing anything (and without touching SP), and a return (00EE) at SP = 0
aborts on the checked `sp -= 1`; both surface as fatal errors of the run,
never as silent continuation or an out-of-bounds write. -/
theorem stack_overflow_and_underflow_are_fatal_errors
    (rnd : Option Nat) (s : Chip8) (op : Nat) :
    (op &&& 0xF000 = 0x2000 → s.sp = 16 → execute rnd s op = .error .indexOutOfBounds) ∧
    (op &&& 0xF000 = 0x0000 → op &&& 0x00FF = 0x00EE → s.sp = 0 →
      execute rnd s op = .error .subOverflow) := by
  constructor
  · intro hf hsp
    unfold execute executeArm
    simp [hf, hsp]
  · intro hf hl hsp
    unfold execute executeArm
    simp [hf, hl, hsp]

/-- C6 witness: the call overflow at SP = 16 and the return underflow at
SP = 0, on concrete states and opcodes. -/
theorem stack_overflow_and_underflow_witness :
    execute none { Chip8.new with sp := 16 } 0x2345 = .error .indexOutOfBounds ∧
    execute none Chip8.new 0x00EE = .error .subOverflow :=
  ⟨(stack_overflow_and_underflow_are_fatal_errors none { Chip8.new with sp := 16 } 0x2345).1
      rfl rfl,
   (stack_overflow_and_underflow_are_fatal_errors none Chip8.new 0x00EE).2 rfl rfl rfl⟩

set_option linter.unreachableTactic false in
set_option linter.unusedTactic false in
theorem executeArm_unrecognized (rnd : Option Nat) (s : Chip8) (op : Nat)
    (h : unrecognized op = true) : executeArm rnd s op = .ok (s, true) := by
  unfold unrecognized at h
  unfold executeArm
  split_ifs at h <;>
    simp only [Bool.and_eq_true, Bool.not_eq_true', beq_eq_false_iff_ne] at h <;>
    split <;> simp_all <;> split <;> simp_all

theorem executeArm_preserves_timers (rnd : Option Nat) (s : Chip8) (op : Nat)
    (h15 : ¬ (op &&& 0xF000 = 0xF000 ∧ op &&& 0x00FF = 0x0015))
    (h18 : ¬ (op &&& 0xF000 = 0xF000 ∧ op &&& 0x00FF = 0x0018))
    (t : Chip8) (d : Bool) (h : executeArm rnd s op = .ok (t, d)) :
    t.delay_timer = s.delay_timer ∧ t.sound_timer = s.sound_timer := by
  unfold executeArm at h
  split at h <;>
    (try split at h) <;>
    (try split at h) <;>
    (try split_ifs at h) <;>
    simp_all <;>
    (try (obtain ⟨ht, hd⟩ := h; subst ht)) <;>
    exact ⟨rfl, rfl⟩

/-- C8: executing an instruction word that falls into one of the
unknown-opcode default arms emits the diagnostic and leaves memory, all
registers, I, PC, the stack and the stack pointer byte-for-byte unchanged
(in particular PC does not advance). -/
theorem unrecognized_opcode_preserves_core_state (rnd : Option Nat) (s : Chip8) (op : Nat)
    (h : unrecognized op = true) :
    ∃ t eff, execute rnd s op = .ok (t, eff) ∧ eff.diag = true ∧
      t.ram = s.ram ∧ t.v = s.v ∧ t.i = s.i ∧ t.pc = s.pc ∧
      t.stack = s.stack ∧ t.sp = s.sp := by
  refine ⟨(updateTimers s).1, ⟨true, (updateTimers s).2⟩, ?_, rfl,
    by simp, by simp, by simp, by simp, by simp, by simp⟩
  unfold execute
  rw [executeArm_unrecognized rnd s op h]

/-- C8 witness: opcode 0x0000 (family 0x0, low byte neither 0xE0 nor 0xEE)
on the initial state. -/
theorem unrecognized_opcode_witness :
    ∃ t eff, execute none Chip8.new 0x0000 = .ok (t, eff) ∧ eff.diag = true ∧
      t.ram = Chip8.new.ram ∧ t.v = Chip8.new.v ∧ t.i = Chip8.new.i ∧ t.pc = Chip8.new.pc ∧
      t.stack = Chip8.new.stack ∧ t.sp = Chip8.new.sp :=
  unrecognized_opcode_preserves_core_state none Chip8.new 0x0000 rfl

/-- C9 counterexample: the claim says one `execute` call leaves the timers
unchanged unless the instruction is FX15/FX18; but on opcode 0x00E0 (clear
screen) with delay timer 5 and sound timer 3, the code returns with the
timers at 4 and 2. -/
theorem step_changes_timers_counterexample :
    s5.delay_timer = 5 ∧ s5.sound_timer = 3 ∧
    ∃ t e, execute none s5 0x00E0 = .ok (t, e) ∧ t.delay_timer = 4 ∧ t.sound_timer = 2 :=
  ⟨rfl, rfl, _, _, rfl, rfl, rfl⟩

/-- C9 (amended): there is no separate timer-tick entry point; `execute`
itself decrements each timer toward zero at the end of every successfully
executed instruction, and emits the beep exactly when the sound timer was 1
entering the timer block.  For every instruction other than FX15/FX18 the
resulting timers are the starting timers minus one (floored at zero). -/
theorem execute_decrements_timers_every_instruction (rnd : Option Nat) (s : Chip8) (op : Nat)
    (h15 : ¬ (op &&& 0xF000 = 0xF000 ∧ op &&& 0x00FF = 0x0015))
    (h18 : ¬ (op &&& 0xF000 = 0xF000 ∧ op &&& 0x00FF = 0x0018))
    (t : Chip8) (eff : Effects) (h : execute rnd s op = .ok (t, eff)) :
    t.delay_timer = s.delay_timer - 1 ∧ t.sound_timer = s.sound_timer - 1 ∧
      eff.beep = (s.sound_timer == 1) := by
  unfold execute at h
  rcases ha : executeArm rnd s op with e | p
  · rw [ha] at h; cases h
  · obtain ⟨s1, d⟩ := p
    rw [ha] at h
    have hp := executeArm_preserves_timers rnd s op h15 h18 s1 d ha
    simp only [Except.ok.injEq, Prod.mk.injEq] at h
    obtain ⟨ht, heff⟩ := h
    subst ht
    subst heff
    simp [hp.1, hp.2]

/-- C9 witness: opcode 0x00E0 on the state with delay 5 and sound 3. -/
theorem execute_decrements_timers_witness :
    execute none s5 0x00E0 = .ok (t5, ⟨false, false⟩) ∧
    (t5.delay_timer = s5.delay_timer - 1 ∧ t5.sound_timer = s5.sound_timer - 1 ∧
      (Effects.mk false false).beep = (s5.sound_timer == 1)) :=
  ⟨rfl, execute_decrements_timers_every_instruction none s5 0x00E0 (by decide) (by decide)
    t5 ⟨false, false⟩ rfl⟩

set_option maxRecDepth 4000 in
/-- C7: the claim says program load copies the image verbatim from 0x200
and rejects oversize images; the code ignores the image entirely — loading
[0x12, 0x60] leaves ram[0x200] = 0 rather than 0x12, and the result does
not depend on the image at all (so nothing is ever copied or rejected). -/
theorem load_game_zeroes_and_ignores_image :
    (load_game Chip8.new [0x12, 0x60]).ram 0x200 = 0 ∧
    (∀ g1 g2 : List Nat, load_game Chip8.new g1 = load_game Chip8.new g2) :=
  ⟨by decide, fun _ _ => rfl⟩


set_option linter.unreachableTactic false in
set_option linter.unusedTactic false in
theorem executeArm_shift_right (rnd : Option Nat) (s : Chip8) (op : Nat)
    (hfam : op &&& 0xF000 = 0x8000) (h6 : op &&& 0x000F = 0x0006) :
    executeArm rnd s op =
      .ok ({ s with v := store (store s.v 0xF (s.v ((op &&& 0x0F00) >>> 8) &&& 1))
                           ((op &&& 0x0F00) >>> 8)
                           (store s.v 0xF (s.v ((op &&& 0x0F00) >>> 8) &&& 1)
                             ((op &&& 0x0F00) >>> 8) >>> 1),
                    pc := s.pc + 2 }, false) := by
  unfold executeArm
  split <;> simp_all <;> split <;> simp_all

set_option linter.unreachableTactic false in
set_option linter.unusedTactic false in
theorem executeArm_shift_left (rnd : Option Nat) (s : Chip8) (op : Nat)
    (hfam : op &&& 0xF000 = 0x8000) (hE : op &&& 0x000F = 0x000E) :
    executeArm rnd s op =
      .ok ({ s with v := store (store s.v 0xF ((s.v ((op &&& 0x0F00) >>> 8) &&& 0x80) >>> 7))
                           ((op &&& 0x0F00) >>> 8)
                           ((store s.v 0xF ((s.v ((op &&& 0x0F00) >>> 8) &&& 0x80) >>> 7)
                             ((op &&& 0x0F00) >>> 8) <<< 1) % 256),
                    pc := s.pc + 2 }, false) := by
  unfold executeArm
  split <;> simp_all <;> split <;> simp_all

/-- C10: the shift instructions 8XY6 and 8XYE read and write only VX and VF:
for two states that agree everywhere except on register Y (Y distinct from X
and from 0xF), both executions succeed, emit equal effects, produce states
that again agree everywhere except on register Y, and leave register Y
itself untouched in both runs. -/
theorem shift_instructions_depend_only_on_vx (rnd : Option Nat) (s1 s2 : Chip8) (op : Nat)
    (hfam : op &&& 0xF000 = 0x8000)
    (hnib : op &&& 0x000F = 0x0006 ∨ op &&& 0x000F = 0x000E)
    (hyx : (op &&& 0x00F0) >>> 4 ≠ (op &&& 0x0F00) >>> 8)
    (hyf : (op &&& 0x00F0) >>> 4 ≠ 0xF)
    (hag : agreeExceptV ((op &&& 0x00F0) >>> 4) s1 s2) :
    ∃ t1 t2 e1 e2, execute rnd s1 op = .ok (t1, e1) ∧ execute rnd s2 op = .ok (t2, e2) ∧
      e1 = e2 ∧ agreeExceptV ((op &&& 0x00F0) >>> 4) t1 t2 ∧
      t1.v ((op &&& 0x00F0) >>> 4) = s1.v ((op &&& 0x00F0) >>> 4) ∧
      t2.v ((op &&& 0x00F0) >>> 4) = s2.v ((op &&& 0x00F0) >>> 4) := by
  have hxy : (op &&& 0x0F00) >>> 8 ≠ (op &&& 0x00F0) >>> 4 := fun hh => hyx hh.symm
  obtain ⟨hram, hvram, hstack, hsp, hi, hpc, hdel, hsnd, hkey, hv⟩ := hag
  have hvx : s1.v ((op &&& 0x0F00) >>> 8) = s2.v ((op &&& 0x0F00) >>> 8) := hv _ hxy
  rcases hnib with h6 | hE
  · have A1 := executeArm_shift_right rnd s1 op hfam h6
    have A2 := executeArm_shift_right rnd s2 op hfam h6
    refine ⟨_, _, _, _, by unfold execute; rw [A1], by unfold execute; rw [A2], ?_, ?_, ?_, ?_⟩
    · simp [hsnd]
    · refine ⟨by simp [hram], by simp [hvram], by simp [hstack], by simp [hsp],
        by simp [hi], by simp [hpc], by simp [hdel], by simp [hsnd], by simp [hkey], ?_⟩
      intro k hk
      have hvk := hv k hk
      simp only [updateTimers_v, store]
      split_ifs <;> simp_all
    · simp [store, hyx, hyf]
    · simp [store, hyx, hyf]
  · have A1 := executeArm_shift_left rnd s1 op hfam hE
    have A2 := executeArm_shift_left rnd s2 op hfam hE
    refine ⟨_, _, _, _, by unfold execute; rw [A1], by unfold execute; rw [A2], ?_, ?_, ?_, ?_⟩
    · simp [hsnd]
    · refine ⟨by simp [hram], by simp [hvram], by simp [hstack], by simp [hsp],
        by simp [hi], by simp [hpc], by simp [hdel], by simp [hsnd], by simp [hkey], ?_⟩
      intro k hk
      have hvk := hv k hk
      simp only [updateTimers_v, store]
      split_ifs <;> simp_all
    · simp [store, hyx, hyf]
    · simp [store, hyx, hyf]

/-- C10 witness: opcode 0x8126 (X = 1, Y = 2, shift right) on two concrete
states that differ exactly at V2. -/
theorem shift_instructions_depend_only_on_vx_witness :
    ∃ t1 t2 e1 e2, execute none s1c 0x8126 = .ok (t1, e1) ∧
      execute none s2c 0x8126 = .ok (t2, e2) ∧
      e1 = e2 ∧ agreeExceptV ((0x8126 &&& 0x00F0) >>> 4) t1 t2 ∧
      t1.v ((0x8126 &&& 0x00F0) >>> 4) = s1c.v ((0x8126 &&& 0x00F0) >>> 4) ∧
      t2.v ((0x8126 &&& 0x00F0) >>> 4) = s2c.v ((0x8126 &&& 0x00F0) >>> 4) := by
  refine shift_instructions_depend_only_on_vx none s1c s2c 0x8126 (by decide)
    (Or.inl (by decide)) (by decide) (by decide) ?_
  refine ⟨rfl, rfl, rfl, rfl, rfl, rfl, rfl, rfl, rfl, ?_⟩
  intro k hk
  have hmask : (0x8126 &&& 0x00F0) >>> 4 = 2 := by decide
  rw [hmask] at hk
  simp [s1c, s2c, Chip8.new, store, hk]

end Chip8Emu
